import Mathlib

/-!
Shallow embedding of the OpenPilot CameraStab module
(src/flight/Modules/CameraStab/camerastab.c), per-axis camera
stabilization pipeline: trim aggregation, low-pass attitude filtering,
feed-forward compensation with gimbal-geometry correction and
acceleration limiting, and bounded output mapping.  Floats are modelled
as exact rationals.
-/

namespace CameraStab

/-- The three controlled axes (CAMERASTABSETTINGS_INPUT_ROLL/PITCH/YAW). -/
inductive Axis where
  | Roll
  | Pitch
  | Yaw
deriving DecidableEq, Repr

/-- Trim input source for an axis: CAMERASTABSETTINGS_INPUT_NONE or an
accessory channel (ACCESSORY0..N). -/
inductive InputSource where
  | None
  | Accessory (n : ℕ)
deriving DecidableEq, Repr

/-- CAMERASTABSETTINGS_STABILIZATIONMODE values. -/
inductive StabMode where
  | Attitude
  | AxisLock
deriving DecidableEq, Repr

/-- CAMERASTABSETTINGS_GIMBALTYPE values. -/
inductive GimbalType where
  | Generic
  | YawRollPitch
  | YawPitchRoll
deriving DecidableEq, Repr

/-- CameraStabSettingsData: per-tick read-only settings snapshot.
Per-axis arrays are modelled as functions from Axis; MaxAxisLockRate and
MaxAccel are scalar in the source struct. -/
structure CameraStabSettings where
  input : Axis → InputSource
  stabilizationMode : Axis → StabMode
  inputRange : Axis → ℚ
  inputRate : Axis → ℚ
  maxAxisLockRate : ℚ
  outputRange : Axis → ℚ
  responseTime : Axis → ℚ
  feedForward : Axis → ℚ
  accelTime : Axis → ℚ
  decelTime : Axis → ℚ
  maxAccel : ℚ
  gimbalType : GimbalType

/-- Per-axis slice of the persistent `struct CameraStab_data`:
`inputs[i]` (the trim value), `attitudeFiltered[i]`, and the three
feed-forward memories. -/
structure AxisState where
  input : ℚ
  attitudeFiltered : ℚ
  ffLastAttitude : ℚ
  ffLastAttitudeFiltered : ℚ
  ffFilterAccumulator : ℚ
deriving DecidableEq, Repr

/-- `bound(val, limit)` from camerastab.c lines 233-238: clamp `val`
to [-limit, +limit]. -/
def bound (val limit : ℚ) : ℚ :=
  if val > limit then limit
  else if val < -limit then -limit
  else val

/-- Elapsed-time computation of `attitudeUpdated` (lines 158-161):
`dT = (now > last) ? (now - last) * portTICK_RATE_MS : SAMPLE_PERIOD_MS`
with SAMPLE_PERIOD_MS = 10.  Tick counts are naturals; `tickRateMs` is
the (positive) milliseconds-per-tick conversion constant. -/
def computeDT (thisSysTime lastSysTime : ℕ) (tickRateMs : ℚ) : ℚ :=
  if thisSysTime > lastSysTime then
    ((thisSysTime - lastSysTime : ℕ) : ℚ) * tickRateMs
  else
    10

/-- Trim aggregation (lines 167-184): if the axis input source is None,
or the accessory lookup fails, `inputs[i]` is untouched; otherwise
Attitude mode overwrites it with `sample * InputRange[i]` and AxisLock
mode integrates the rate when above the lock threshold. -/
def processInput (cameraStab : CameraStabSettings) (i : Axis) (dT : ℚ)
    (accessoryVal : Option ℚ) (prev : ℚ) : ℚ :=
  match cameraStab.input i with
  | .None => prev
  | .Accessory _ =>
    match accessoryVal with
    | none => prev
    | some v =>
      match cameraStab.stabilizationMode i with
      | .Attitude => v * cameraStab.inputRange i
      | .AxisLock =>
        let input_rate := v * cameraStab.inputRate i
        if |input_rate| > cameraStab.maxAxisLockRate then
          bound (prev + input_rate * (1/1000) * dT) (cameraStab.inputRange i)
        else
          prev

/-- Single-pole low-pass attitude filter (line 206):
`((rt * attitudeFiltered) + (dT * attitude)) / (rt + dT)`. -/
def lowPassFilter (rt dT filtered raw : ℚ) : ℚ :=
  (rt * filtered + dT * raw) / (rt + dT)

/-- Gimbal-geometry correction of applyFeedForward (lines 244-268):
1.0 by default; for a YawRollPitch gimbal the Roll axis is scaled by
`(OutputRange[Pitch] - |pitch|) / OutputRange[Pitch]`, and symmetrically
for YawPitchRoll on Pitch using the current roll. -/
def gimbalTypeCorrection (cameraStab : CameraStabSettings) (index : Axis)
    (roll pitch : ℚ) : ℚ :=
  match cameraStab.gimbalType with
  | .Generic => 1
  | .YawRollPitch =>
    if index = .Roll then
      (cameraStab.outputRange .Pitch - |pitch|) / cameraStab.outputRange .Pitch
    else 1
  | .YawPitchRoll =>
    if index = .Pitch then
      (cameraStab.outputRange .Roll - |roll|) / cameraStab.outputRange .Roll
    else 1

/-- Feed-forward accumulate-and-decay core (lines 271-281): returns the
working attitude after both accumulator contributions, together with the
decayed accumulator that is written back to `ffFilterAccumulator`. -/
def ffCore (feedForward gtc accelTime decelTime dT attitude
    ffLastAttitude ffFilterAccumulator : ℚ) : ℚ × ℚ :=
  let accumulator := ffFilterAccumulator +
    (attitude - ffLastAttitude) * feedForward * gtc
  let attitude1 := attitude + accumulator
  let filter0 := (if accumulator > 0 then accelTime else decelTime) / dT
  let filter := if filter0 < 1 then 1 else filter0
  let accumulator2 := accumulator - accumulator / filter
  (attitude1 + accumulator2, accumulator2)

/-- Acceleration limiter of applyFeedForward (lines 284-290): clamp the
per-tick change of the compensated attitude to
`MaxAccel * 0.001 * dT` around `ffLastAttitudeFiltered`. -/
def accelLimit (maxAccel dT ffLastAttitudeFiltered attitude : ℚ) : ℚ :=
  let delta := attitude - ffLastAttitudeFiltered
  let maxDelta := maxAccel * (1/1000) * dT
  if |delta| > maxDelta then
    ffLastAttitudeFiltered + (if delta > 0 then maxDelta else -maxDelta)
  else
    attitude

/-- applyFeedForward (lines 241-292): gimbal correction, accumulate,
decay, acceleration limit; returns the compensated attitude and the
updated feed-forward state fields. -/
def applyFeedForward (index : Axis) (dT attitude : ℚ)
    (cameraStab : CameraStabSettings) (roll pitch : ℚ) (st : AxisState) :
    ℚ × AxisState :=
  let gtc := gimbalTypeCorrection cameraStab index roll pitch
  let core := ffCore (cameraStab.feedForward index) gtc
    (cameraStab.accelTime index) (cameraStab.decelTime index) dT attitude
    st.ffLastAttitude st.ffFilterAccumulator
  let attitude2 := accelLimit cameraStab.maxAccel dT
    st.ffLastAttitudeFiltered core.1
  (attitude2,
    { st with
      ffLastAttitude := attitude
      ffFilterAccumulator := core.2
      ffLastAttitudeFiltered := attitude2 })

/-- Output mapper (line 216):
`bound((attitude + inputs[i]) / OutputRange[i], 1.0)`. -/
def outputMap (attitude trim range : ℚ) : ℚ :=
  bound ((attitude + trim) / range) 1

/-- The compensated attitude an axis feeds into the output mapper:
low-pass filtered raw attitude, then feed-forward when
`FeedForward[i]` is nonzero. -/
def compensatedOut (cameraStab : CameraStabSettings) (i : Axis)
    (dT raw roll pitch : ℚ) (st : AxisState) : ℚ :=
  let attitude1 := lowPassFilter (cameraStab.responseTime i) dT
    st.attitudeFiltered raw
  if cameraStab.feedForward i ≠ 0 then
    (applyFeedForward i dT attitude1 cameraStab roll pitch st).1
  else
    attitude1

/-- One axis iteration of the `attitudeUpdated` loop body
(lines 165-230): trim aggregation, low-pass filter, optional
feed-forward, bounded output.  Returns the updated per-axis state and
the command written to the camera-desired channel. -/
def axisTick (cameraStab : CameraStabSettings) (i : Axis) (dT : ℚ)
    (accessoryVal : Option ℚ) (rawAttitude roll pitch : ℚ)
    (st : AxisState) : AxisState × ℚ :=
  let trim := processInput cameraStab i dT accessoryVal st.input
  let attitude1 := lowPassFilter (cameraStab.responseTime i) dT
    st.attitudeFiltered rawAttitude
  let st1 : AxisState := { st with input := trim, attitudeFiltered := attitude1 }
  let ffRes :=
    if cameraStab.feedForward i ≠ 0 then
      applyFeedForward i dT attitude1 cameraStab roll pitch st1
    else
      (attitude1, st1)
  (ffRes.2, outputMap ffRes.1 trim (cameraStab.outputRange i))

/-- Iterated application of the low-pass filter to a constant raw
input: `lpfIter rt dT raw f0 n` is the filtered value after `n` ticks
starting from `f0`. -/
def lpfIter (rt dT raw f0 : ℚ) : ℕ → ℚ
  | 0 => f0
  | n + 1 => lowPassFilter rt dT (lpfIter rt dT raw f0 n) raw

/-- Feed-forward accumulate-and-decay core as the specification words
it: accumulate the attitude delta, record the last attitude, add the
accumulator to the working value, decay by `max(1, timeConstant/dT)`,
and add the decayed accumulator again.  Returns (working attitude,
new ffLastAttitude, new accumulator). -/
def ffCoreSpec (feedForward gtc accelTime decelTime dT attitude
    ffLastAttitude acc0 : ℚ) : ℚ × ℚ × ℚ :=
  let acc1 := acc0 + (attitude - ffLastAttitude) * feedForward * gtc
  let last := attitude
  let working1 := attitude + acc1
  let timeConstant := if acc1 > 0 then accelTime else decelTime
  let acc2 := acc1 - acc1 / max 1 (timeConstant / dT)
  (working1 + acc2, last, acc2)

/-- A concrete settings snapshot used to exercise the pipeline on
sample inputs. -/
def demoSettings : CameraStabSettings where
  input := fun _ => .Accessory 0
  stabilizationMode := fun _ => .AxisLock
  inputRange := fun _ => 20
  inputRate := fun _ => 1
  maxAxisLockRate := 1/2
  outputRange := fun _ => 50
  responseTime := fun _ => 0
  feedForward := fun _ => 0
  accelTime := fun _ => 5
  decelTime := fun _ => 5
  maxAccel := 500
  gimbalType := .Generic

/-- The zero-initialized per-axis state (memset at module start). -/
def zeroState : AxisState where
  input := 0
  attitudeFiltered := 0
  ffLastAttitude := 0
  ffLastAttitudeFiltered := 0
  ffFilterAccumulator := 0

end CameraStab

namespace CameraStab

theorem bound_mem (v L : ℚ) (hL : 0 ≤ L) : -L ≤ bound v L ∧ bound v L ≤ L := by
  unfold bound
  split_ifs with h1 h2 <;> constructor <;> linarith

theorem bound_eq_self (v L : ℚ) (h : |v| ≤ L) : bound v L = v := by
  rcases abs_le.mp h with ⟨h1, h2⟩
  unfold bound
  split_ifs with g1 g2 <;> linarith

theorem lpfIter_closed (rt dT raw f0 : ℚ) (h : rt + dT ≠ 0) (n : ℕ) :
    lpfIter rt dT raw f0 n = raw - (raw - f0) * (rt / (rt + dT)) ^ n := by
  induction n with
  | zero => simp [lpfIter]
  | succ n ih =>
    simp only [lpfIter, lowPassFilter, ih, pow_succ]
    field_simp
    ring

end CameraStab

namespace CameraStab

/-- C10: `bound(v, L)` is a pure function whose result lies in [-L, L]
for every v and every L ≥ 0, and equals v whenever |v| ≤ L. -/
theorem C10_bound_pure (v L : ℚ) (hL : 0 ≤ L) :
    (-L ≤ bound v L ∧ bound v L ≤ L) ∧ (|v| ≤ L → bound v L = v) :=
  ⟨bound_mem v L hL, fun h => bound_eq_self v L h⟩

/-- Witness for C10 at v = 1, L = 2: the result is in [-2, 2] and, since
|1| ≤ 2, equals 1. -/
theorem C10_bound_pure_witness :
    (-(2:ℚ) ≤ bound 1 2 ∧ bound 1 2 ≤ 2) ∧ (|(1:ℚ)| ≤ 2 → bound 1 2 = 1) :=
  C10_bound_pure 1 2 (by norm_num)

/-- C7: on every tick, dT equals (now - last) converted to milliseconds
when the clock reading exceeds the stored lastSysTime, and otherwise
equals the nominal 10 ms period; under a positive tick-to-ms conversion
rate dT is always strictly positive. -/
theorem C7_dT_positive (now last : ℕ) (tickRateMs : ℚ)
    (hrate : 0 < tickRateMs) :
    (now > last →
      computeDT now last tickRateMs = ((now - last : ℕ) : ℚ) * tickRateMs)
    ∧ (¬ now > last → computeDT now last tickRateMs = 10)
    ∧ 0 < computeDT now last tickRateMs := by
  refine ⟨fun h => by simp [computeDT, h], fun h => by simp [computeDT, h], ?_⟩
  unfold computeDT
  split_ifs with h
  · have h0 : 0 < now - last := Nat.sub_pos_of_lt h
    have h1 : (0:ℚ) < ((now - last : ℕ) : ℚ) := by exact_mod_cast h0
    exact mul_pos h1 hrate
  · norm_num

/-- Witness for C7 at now = last = 5, tickRateMs = 1: the clock did not
advance, dT is substituted with 10 and is positive. -/
theorem C7_dT_positive_witness :
    ((5:ℕ) > 5 → computeDT 5 5 1 = ((5 - 5 : ℕ) : ℚ) * 1)
    ∧ (¬ (5:ℕ) > 5 → computeDT 5 5 1 = 10)
    ∧ 0 < computeDT 5 5 1 :=
  C7_dT_positive 5 5 1 (by norm_num)

end CameraStab

namespace CameraStab

/-- C5: on every tick with dT > 0 and responseTime ≥ 0, the attitude
filter stores (rt * filteredAttitude + dT * raw) / (rt + dT) into
filteredAttitude; when rt = 0 the stored value is exactly the raw
sample, and with feed-forward disabled that stored value is the one fed
to the output mapper. -/
theorem C5_attitude_filter (cameraStab : CameraStabSettings) (i : Axis)
    (dT : ℚ) (accessoryVal : Option ℚ) (raw roll pitch : ℚ) (st : AxisState)
    (hdT : 0 < dT) (_hrt : 0 ≤ cameraStab.responseTime i) :
    (axisTick cameraStab i dT accessoryVal raw roll pitch st).1.attitudeFiltered
      = (cameraStab.responseTime i * st.attitudeFiltered + dT * raw)
          / (cameraStab.responseTime i + dT)
    ∧ (cameraStab.responseTime i = 0 →
        (axisTick cameraStab i dT accessoryVal raw roll pitch
          st).1.attitudeFiltered = raw)
    ∧ (cameraStab.feedForward i = 0 →
        (axisTick cameraStab i dT accessoryVal raw roll pitch st).2
          = outputMap
              ((cameraStab.responseTime i * st.attitudeFiltered + dT * raw)
                / (cameraStab.responseTime i + dT))
              (processInput cameraStab i dT accessoryVal st.input)
              (cameraStab.outputRange i)) := by
  have hdT0 : dT ≠ 0 := ne_of_gt hdT
  refine ⟨?_, ?_, ?_⟩
  · by_cases hff : cameraStab.feedForward i ≠ 0 <;>
      simp [axisTick, applyFeedForward, lowPassFilter, hff]
  · intro h0
    by_cases hff : cameraStab.feedForward i ≠ 0 <;>
      simp [axisTick, applyFeedForward, lowPassFilter, hff, h0] <;>
      field_simp
  · intro hff
    simp [axisTick, lowPassFilter, hff]

/-- Witness for C5: with demoSettings (responseTime 0, feed-forward
off) and dT = 10, the filter passes the raw sample 7 through and stores
it as the filtered attitude. -/
theorem C5_attitude_filter_witness :
    (axisTick demoSettings .Roll 10 none 7 0 0 zeroState).1.attitudeFiltered
      = (demoSettings.responseTime .Roll * zeroState.attitudeFiltered + 10 * 7)
          / (demoSettings.responseTime .Roll + 10)
    ∧ (demoSettings.responseTime .Roll = 0 →
        (axisTick demoSettings .Roll 10 none 7 0 0
          zeroState).1.attitudeFiltered = 7)
    ∧ (demoSettings.feedForward .Roll = 0 →
        (axisTick demoSettings .Roll 10 none 7 0 0 zeroState).2
          = outputMap
              ((demoSettings.responseTime .Roll * zeroState.attitudeFiltered
                  + 10 * 7) / (demoSettings.responseTime .Roll + 10))
              (processInput demoSettings .Roll 10 none zeroState.input)
              (demoSettings.outputRange .Roll)) :=
  C5_attitude_filter demoSettings .Roll 10 none 7 0 0 zeroState
    (by norm_num) (by norm_num [demoSettings])

end CameraStab

namespace CameraStab

theorem lpfIter_50_value :
    lpfIter 100 10 10 0 50 - 10 = -(10 * (10/11) ^ 50) := by
  rw [lpfIter_closed 100 10 10 0 (by norm_num) 50]
  norm_num

theorem lpfIter_100_value :
    lpfIter 100 10 10 0 100 - 10 = -(10 * (10/11) ^ 100) := by
  rw [lpfIter_closed 100 10 10 0 (by norm_num) 100]
  norm_num

/-- C9 counterexample: with raw = 10, responseTime = 100, dT = 10,
fifty filter iterations starting from 0 do NOT land within 1e-3 of 10
(the distance is 10 * (10/11)^50 ≈ 0.085). -/
theorem C9_fifty_iterations_counterexample :
    ¬ |lpfIter 100 10 10 0 50 - 10| ≤ 1/1000 := by
  rw [lpfIter_50_value, abs_neg, abs_of_nonneg (by positivity)]
  norm_num

/-- C9 (amended): the attitude filter is a contraction toward the raw
input: each step scales |filteredAttitude - raw| by the factor
rt/(rt + dT) < 1; and with raw = 10, rt = 100, dT = 10, one hundred
iterations starting from 0 land within 1e-3 of 10. -/
theorem C9_filter_contraction (rt dT raw f : ℚ) (hrt : 0 < rt)
    (hdT : 0 < dT) :
    |lowPassFilter rt dT f raw - raw| = rt / (rt + dT) * |f - raw|
    ∧ rt / (rt + dT) < 1
    ∧ |lpfIter 100 10 10 0 100 - 10| < 1/1000 := by
  have hsum : (0:ℚ) < rt + dT := by linarith
  refine ⟨?_, ?_, ?_⟩
  · have h : lowPassFilter rt dT f raw - raw = rt / (rt + dT) * (f - raw) := by
      field_simp [lowPassFilter]
      ring
    rw [h, abs_mul, abs_of_nonneg (by positivity)]
  · rw [div_lt_one hsum]
    linarith
  · rw [lpfIter_100_value, abs_neg, abs_of_nonneg (by positivity)]
    norm_num

/-- Witness for C9 at rt = 100, dT = 10, raw = 10, f = 0: one step
shrinks the distance by the factor 100/110 < 1, and one hundred steps
land within 1e-3. -/
theorem C9_filter_contraction_witness :
    |lowPassFilter 100 10 0 10 - 10| = 100 / (100 + 10) * |(0:ℚ) - 10|
    ∧ (100:ℚ) / (100 + 10) < 1
    ∧ |lpfIter 100 10 10 0 100 - 10| < 1/1000 :=
  C9_filter_contraction 100 10 10 0 (by norm_num) (by norm_num)

end CameraStab

namespace CameraStab

theorem accelLimit_close (m dT last a : ℚ) (h : 0 ≤ m * (1/1000) * dT) :
    |accelLimit m dT last a - last| ≤ m * (1/1000) * dT := by
  simp only [accelLimit]
  split_ifs with h1 h2
  · rw [add_sub_cancel_left, abs_of_nonneg h]
  · rw [add_sub_cancel_left, abs_neg, abs_of_nonneg h]
  · push_neg at h1
    exact h1

/-- C2: whenever the feed-forward compensator runs with dT > 0 (and a
nonnegative MaxAccel setting), the per-tick change of
ffLastAttitudeFiltered is at most MaxAccel * dT / 1000 in magnitude,
for every attitude input and every accumulator state. -/
theorem C2_accel_limit (cameraStab : CameraStabSettings) (i : Axis)
    (dT attitude roll pitch : ℚ) (st : AxisState)
    (hdT : 0 < dT) (hmax : 0 ≤ cameraStab.maxAccel) :
    |(applyFeedForward i dT attitude cameraStab roll pitch
        st).2.ffLastAttitudeFiltered - st.ffLastAttitudeFiltered|
      ≤ cameraStab.maxAccel * dT / 1000 := by
  have he : cameraStab.maxAccel * dT / 1000
      = cameraStab.maxAccel * (1/1000) * dT := by ring
  have h0 : 0 ≤ cameraStab.maxAccel * (1/1000) * dT := by positivity
  rw [he]
  simpa [applyFeedForward] using
    accelLimit_close cameraStab.maxAccel dT st.ffLastAttitudeFiltered
      (ffCore (cameraStab.feedForward i)
        (gimbalTypeCorrection cameraStab i roll pitch)
        (cameraStab.accelTime i) (cameraStab.decelTime i) dT attitude
        st.ffLastAttitude st.ffFilterAccumulator).1 h0

/-- Witness for C2 with demoSettings (MaxAccel = 500), dT = 10,
attitude 3: the stored filtered attitude moves by at most 5. -/
theorem C2_accel_limit_witness :
    |(applyFeedForward .Roll 10 3 demoSettings 0 0
        zeroState).2.ffLastAttitudeFiltered - zeroState.ffLastAttitudeFiltered|
      ≤ demoSettings.maxAccel * 10 / 1000 :=
  C2_accel_limit demoSettings .Roll 10 3 0 0 zeroState (by norm_num)
    (by norm_num [demoSettings])

/-- C3: the feed-forward core performs, in order, accumulator
increment, last-attitude record, first accumulator contribution,
decay by max(1, timeConstant/dT) with timeConstant chosen by the sign
of the accumulator, and a second accumulator contribution — it agrees
with the specification-worded ffCoreSpec, and applyFeedForward records
ffLastAttitude := attitude and writes back the decayed accumulator. -/
theorem C3_ff_order (feedForward gtc accelTime decelTime dT attitude
    lastAtt acc0 : ℚ) (i : Axis) (cameraStab : CameraStabSettings)
    (roll pitch : ℚ) (st : AxisState) :
    ffCore feedForward gtc accelTime decelTime dT attitude lastAtt acc0
      = ((ffCoreSpec feedForward gtc accelTime decelTime dT attitude
            lastAtt acc0).1,
         (ffCoreSpec feedForward gtc accelTime decelTime dT attitude
            lastAtt acc0).2.2)
    ∧ (applyFeedForward i dT attitude cameraStab roll pitch
        st).2.ffLastAttitude = attitude
    ∧ (applyFeedForward i dT attitude cameraStab roll pitch
        st).2.ffFilterAccumulator
      = (ffCoreSpec (cameraStab.feedForward i)
          (gimbalTypeCorrection cameraStab i roll pitch)
          (cameraStab.accelTime i) (cameraStab.decelTime i) dT attitude
          st.ffLastAttitude st.ffFilterAccumulator).2.2 := by
  have hmax : ∀ x : ℚ, (if x < 1 then (1:ℚ) else x) = max 1 x := by
    intro x
    rcases lt_or_le x 1 with h | h
    · simp [h, max_eq_left h.le]
    · simp [not_lt.mpr h, max_eq_right h]
  refine ⟨?_, by simp [applyFeedForward], ?_⟩
  · simp only [ffCore, ffCoreSpec, hmax]
  · simp only [applyFeedForward, ffCore, ffCoreSpec, hmax]

/-- C4: the gimbal-type correction equals
(OutputRange[Pitch] - |pitch|) / OutputRange[Pitch] on Roll for a
YawRollPitch gimbal, symmetrically on Pitch for YawPitchRoll, defaults
to 1 for Generic gimbals and non-corrected axes, and goes negative
(unclamped) when |pitch| exceeds a positive OutputRange[Pitch]. -/
theorem C4_gimbal_correction (cameraStab : CameraStabSettings)
    (roll pitch : ℚ) :
    (cameraStab.gimbalType = .YawRollPitch →
      gimbalTypeCorrection cameraStab .Roll roll pitch
        = (cameraStab.outputRange .Pitch - |pitch|)
            / cameraStab.outputRange .Pitch)
    ∧ (cameraStab.gimbalType = .YawPitchRoll →
      gimbalTypeCorrection cameraStab .Pitch roll pitch
        = (cameraStab.outputRange .Roll - |roll|)
            / cameraStab.outputRange .Roll)
    ∧ (cameraStab.gimbalType = .Generic →
        ∀ i, gimbalTypeCorrection cameraStab i roll pitch = 1)
    ∧ (cameraStab.gimbalType = .YawRollPitch →
        ∀ i, i ≠ .Roll → gimbalTypeCorrection cameraStab i roll pitch = 1)
    ∧ (cameraStab.gimbalType = .YawPitchRoll →
        ∀ i, i ≠ .Pitch → gimbalTypeCorrection cameraStab i roll pitch = 1)
    ∧ (cameraStab.gimbalType = .YawRollPitch →
        0 < cameraStab.outputRange .Pitch →
        cameraStab.outputRange .Pitch < |pitch| →
        gimbalTypeCorrection cameraStab .Roll roll pitch < 0) := by
  refine ⟨fun h => by simp [gimbalTypeCorrection, h],
    fun h => by simp [gimbalTypeCorrection, h],
    fun h i => by simp [gimbalTypeCorrection, h],
    fun h i hi => by simp [gimbalTypeCorrection, h, hi],
    fun h i hi => by simp [gimbalTypeCorrection, h, hi],
    ?_⟩
  intro h hpos hlt
  have e : gimbalTypeCorrection cameraStab .Roll roll pitch
      = (cameraStab.outputRange .Pitch - |pitch|)
          / cameraStab.outputRange .Pitch := by
    simp [gimbalTypeCorrection, h]
  rw [e]
  exact div_neg_of_neg_of_pos (by linarith) hpos

/-- Witness for C4 with demoSettings switched to a YawRollPitch gimbal,
pitch = 60 beyond OutputRange[Pitch] = 50: the Roll correction equals
(50 - 60)/50 and is negative; Yaw keeps correction 1, and the Generic
gimbal keeps correction 1 on Roll. -/
theorem C4_gimbal_correction_witness :
    gimbalTypeCorrection { demoSettings with gimbalType := .YawRollPitch }
        .Roll 0 60
      = ({ demoSettings with
            gimbalType := GimbalType.YawRollPitch }.outputRange .Pitch
          - |(60:ℚ)|)
        / { demoSettings with
            gimbalType := GimbalType.YawRollPitch }.outputRange .Pitch
    ∧ gimbalTypeCorrection { demoSettings with gimbalType := .YawRollPitch }
        .Yaw 0 60 = 1
    ∧ gimbalTypeCorrection demoSettings .Roll 0 60 = 1
    ∧ gimbalTypeCorrection { demoSettings with gimbalType := .YawRollPitch }
        .Roll 0 60 < 0 := by
  have t1 := C4_gimbal_correction
    { demoSettings with gimbalType := .YawRollPitch } 0 60
  have t2 := C4_gimbal_correction demoSettings 0 60
  exact ⟨t1.1 rfl, t1.2.2.2.1 rfl .Yaw (by decide), t2.2.2.1 rfl .Roll,
    t1.2.2.2.2.2 rfl (by norm_num [demoSettings]) (by norm_num [demoSettings])⟩

end CameraStab

namespace CameraStab

/-- C6: in AxisLock mode with a successful accessory lookup, a rate
above the lock threshold integrates the trim through bound (so the
result stays within a nonnegative InputRange), a rate at or below the
threshold leaves the trim exactly unchanged, and a positive
above-threshold rate strictly increases the trim each tick until it is
capped at InputRange. -/
theorem C6_axislock_trim (cameraStab : CameraStabSettings) (i : Axis)
    (n : ℕ) (dT v prev : ℚ)
    (hsrc : cameraStab.input i = .Accessory n)
    (hmode : cameraStab.stabilizationMode i = .AxisLock) :
    (|v * cameraStab.inputRate i| > cameraStab.maxAxisLockRate →
      processInput cameraStab i dT (some v) prev
        = bound (prev + v * cameraStab.inputRate i * dT / 1000)
            (cameraStab.inputRange i)
      ∧ (0 ≤ cameraStab.inputRange i →
          |processInput cameraStab i dT (some v) prev|
            ≤ cameraStab.inputRange i))
    ∧ (|v * cameraStab.inputRate i| ≤ cameraStab.maxAxisLockRate →
        processInput cameraStab i dT (some v) prev = prev)
    ∧ (|v * cameraStab.inputRate i| > cameraStab.maxAxisLockRate →
        0 < v * cameraStab.inputRate i → 0 < dT →
        -cameraStab.inputRange i ≤ prev →
        prev < cameraStab.inputRange i →
        prev < processInput cameraStab i dT (some v) prev
        ∧ processInput cameraStab i dT (some v) prev
            ≤ cameraStab.inputRange i) := by
  have hpi : processInput cameraStab i dT (some v) prev
      = if |v * cameraStab.inputRate i| > cameraStab.maxAxisLockRate then
          bound (prev + v * cameraStab.inputRate i * (1/1000) * dT)
            (cameraStab.inputRange i)
        else prev := by
    simp [processInput, hsrc, hmode]
  refine ⟨?_, ?_, ?_⟩
  · intro h
    rw [hpi, if_pos h]
    constructor
    · congr 1
      ring
    · intro hR
      exact abs_le.mpr (bound_mem _ _ hR)
  · intro h
    rw [hpi, if_neg (not_lt.mpr h)]
  · intro h hrate hdT hlo hhi
    rw [hpi, if_pos h]
    have hx : 0 < v * cameraStab.inputRate i * (1/1000) * dT :=
      mul_pos (mul_pos hrate (by norm_num)) hdT
    unfold bound
    split_ifs with g1 g2 <;> constructor <;> linarith

/-- Witness for C6 with demoSettings (inputRate 1, maxAxisLockRate 1/2,
InputRange 20), dT = 10: sample 0.3 holds the trim at 5, while sample
0.8 from trim 0 strictly increases it, staying at most 20. -/
theorem C6_axislock_trim_witness :
    processInput demoSettings .Roll 10 (some (3/10)) 5 = 5
    ∧ ((0:ℚ) < processInput demoSettings .Roll 10 (some (8/10)) 0
        ∧ processInput demoSettings .Roll 10 (some (8/10)) 0
            ≤ demoSettings.inputRange .Roll) := by
  have t1 := C6_axislock_trim demoSettings .Roll 0 10 (3/10) 5 rfl rfl
  have t2 := C6_axislock_trim demoSettings .Roll 0 10 (8/10) 0 rfl rfl
  refine ⟨t1.2.1 (by norm_num [demoSettings, abs_le]), ?_⟩
  exact t2.2.2 (by norm_num [demoSettings, lt_abs]) (by norm_num [demoSettings])
    (by norm_num) (by norm_num [demoSettings]) (by norm_num [demoSettings])

theorem axisTick_output (cameraStab : CameraStabSettings) (i : Axis)
    (dT : ℚ) (accessoryVal : Option ℚ) (raw roll pitch : ℚ)
    (st : AxisState) :
    (axisTick cameraStab i dT accessoryVal raw roll pitch st).2
      = outputMap (compensatedOut cameraStab i dT raw roll pitch st)
          (processInput cameraStab i dT accessoryVal st.input)
          (cameraStab.outputRange i) := by
  by_cases hff : cameraStab.feedForward i = 0 <;>
    simp [axisTick, compensatedOut, applyFeedForward, hff]

/-- C1: the per-axis command is bound((compensatedAttitude + trimValue)
/ OutputRange, 1); with OutputRange nonzero it always lies in [-1, 1],
and for OutputRange 50, compensated attitude 25 and trim 25 the command
is exactly 1. -/
theorem C1_output_mapper (cameraStab : CameraStabSettings) (i : Axis)
    (dT : ℚ) (accessoryVal : Option ℚ) (raw roll pitch : ℚ)
    (st : AxisState) (_hrange : cameraStab.outputRange i ≠ 0) :
    (axisTick cameraStab i dT accessoryVal raw roll pitch st).2
      = bound ((compensatedOut cameraStab i dT raw roll pitch st
            + processInput cameraStab i dT accessoryVal st.input)
          / cameraStab.outputRange i) 1
    ∧ -1 ≤ (axisTick cameraStab i dT accessoryVal raw roll pitch st).2
    ∧ (axisTick cameraStab i dT accessoryVal raw roll pitch st).2 ≤ 1
    ∧ outputMap 25 25 50 = 1 := by
  have h := axisTick_output cameraStab i dT accessoryVal raw roll pitch st
  refine ⟨by rw [h]; rfl, ?_, ?_, ?_⟩
  · rw [h]
    exact (bound_mem _ 1 (by norm_num)).1
  · rw [h]
    exact (bound_mem _ 1 (by norm_num)).2
  · norm_num [outputMap, bound]

/-- Witness for C1 with demoSettings (OutputRange 50 ≠ 0) on a concrete
tick: the emitted command is the bounded normalized sum and lies in
[-1, 1]. -/
theorem C1_output_mapper_witness :
    (axisTick demoSettings .Roll 10 (some (3/10)) 7 0 0 zeroState).2
      = bound ((compensatedOut demoSettings .Roll 10 7 0 0 zeroState
            + processInput demoSettings .Roll 10 (some (3/10)) zeroState.input)
          / demoSettings.outputRange .Roll) 1
    ∧ -1 ≤ (axisTick demoSettings .Roll 10 (some (3/10)) 7 0 0 zeroState).2
    ∧ (axisTick demoSettings .Roll 10 (some (3/10)) 7 0 0 zeroState).2 ≤ 1
    ∧ outputMap 25 25 50 = 1 :=
  C1_output_mapper demoSettings .Roll 10 (some (3/10)) 7 0 0 zeroState
    (by norm_num [demoSettings])

/-- C8: when the axis input source is None, or the accessory lookup
fails, the trim value after the tick equals its value before the tick,
while the rest of the pipeline still runs: the attitude filter state
advances and the command is still emitted from the held trim. -/
theorem C8_trim_hold (cameraStab : CameraStabSettings) (i : Axis)
    (dT : ℚ) (accessoryVal : Option ℚ) (raw roll pitch : ℚ)
    (st : AxisState)
    (h : cameraStab.input i = .None ∨ accessoryVal = none) :
    (axisTick cameraStab i dT accessoryVal raw roll pitch st).1.input
      = st.input
    ∧ (axisTick cameraStab i dT accessoryVal raw roll pitch
        st).1.attitudeFiltered
      = lowPassFilter (cameraStab.responseTime i) dT st.attitudeFiltered raw
    ∧ (axisTick cameraStab i dT accessoryVal raw roll pitch st).2
      = outputMap (compensatedOut cameraStab i dT raw roll pitch st)
          st.input (cameraStab.outputRange i) := by
  have hp : processInput cameraStab i dT accessoryVal st.input = st.input := by
    rcases h with h | h
    · simp [processInput, h]
    · subst h
      rcases hsrc : cameraStab.input i <;> simp [processInput, hsrc]
  refine ⟨?_, ?_, ?_⟩
  · by_cases hff : cameraStab.feedForward i = 0 <;>
      simp [axisTick, applyFeedForward, hff, hp]
  · by_cases hff : cameraStab.feedForward i = 0 <;>
      simp [axisTick, applyFeedForward, hff]
  · rw [axisTick_output, hp]

/-- Witness for C8: with demoSettings and a failed accessory lookup on
a tick from trim 4, the trim is held at 4, the filter state advances,
and the command is still produced from the held trim. -/
theorem C8_trim_hold_witness :
    (axisTick demoSettings .Roll 10 none 7 0 0
        (AxisState.mk 4 0 0 0 0)).1.input = (AxisState.mk 4 0 0 0 0).input
    ∧ (axisTick demoSettings .Roll 10 none 7 0 0
        (AxisState.mk 4 0 0 0 0)).1.attitudeFiltered
      = lowPassFilter (demoSettings.responseTime .Roll) 10
          (AxisState.mk 4 0 0 0 0).attitudeFiltered 7
    ∧ (axisTick demoSettings .Roll 10 none 7 0 0 (AxisState.mk 4 0 0 0 0)).2
      = outputMap
          (compensatedOut demoSettings .Roll 10 7 0 0 (AxisState.mk 4 0 0 0 0))
          (AxisState.mk 4 0 0 0 0).input (demoSettings.outputRange .Roll) :=
  C8_trim_hold demoSettings .Roll 10 none 7 0 0 (AxisState.mk 4 0 0 0 0)
    (Or.inr rfl)

end CameraStab
